import Mathlib

/-!
Verification of the goFlipMouse event-interpretation and motion-synthesis core.

The repository contains two variants of the interpreter:
- `src/main.go` (struct-based refactor): `EventProcessor.ProcessEvent`,
  `MouseController.AccelerateAndMove`, `ResetButtons`, `ToggleDragMode`,
  `ToggleMouseMode`, `DeviceManager.processMovement`.
- `src/unnamed/part_000` (latest draft): `EventProcessor.ProcessEvent` with a
  value==2 guard and scroll held-flags, `AccelerateVelocity` with the
  dead-zone cut-off commented out, `processScroll`.

Both are embedded below.  Wall-clock time (time.Now / time.Since) is passed
explicitly as an integer count of milliseconds; the zero value of time.Time
is 0.  Sink calls (uinput mouse commands) are collected in an output list.
Float64 arithmetic of the motion integrator is idealized as real arithmetic;
the exact integer/boolean state of the interpreter is modelled with Int, Nat,
Bool and Rat (the speed fields only ever hold small integer values, on which
float64 arithmetic is exact).
-/

/-- Linux event type EV_KEY (source: main.go constant block). -/
def EvKey : Nat := 0x01

/-- Linux event type EV_REL. -/
def EvRel : Nat := 0x02

/-- Linux event type EV_MSC. -/
def EvMsc : Nat := 0x04

/-- Linux event type EV_SYN. -/
def EvSyn : Nat := 0x00

/-- Event-processing result ChangedToMouse (unused by ProcessEvent). -/
def ChangedToMouse : Int := -2

/-- Event-processing result MuteEvent: the event is suppressed. -/
def MuteEvent : Int := 0

/-- Event-processing result PassThruEvent: the event is forwarded verbatim. -/
def PassThruEvent : Int := 1

/-- Event-processing result ChangedEvent (unused by ProcessEvent). -/
def ChangedEvent : Int := 2

/-- The default long-press threshold, defaultConfig.LongPressDuration,
225 milliseconds. -/
def defaultLongPress : Int := 225

/-- A physical input event: evdev.InputEvent restricted to the fields the
interpreter reads (Type, Code, Value). -/
structure InputEvent where
  evType : Nat
  code : Nat
  value : Int
deriving DecidableEq

/-- keymaps.KeyMapping: one record per keyboard type.  Field set is the union
of the fields used by the two interpreter variants (ToggleScrollKey appears in
the main.go switch, DragKey in the part_000 switch). -/
structure KeyMapping where
  ExitKey : Nat
  EnterKey : Nat
  ToggleMouseKey : Nat
  ToggleScrollKey : Nat
  ClickKey : Nat
  DragKey : Nat
  FasterKey : Nat
  SlowerKey : Nat
  UpKey : Nat
  DownKey : Nat
  LeftKey : Nat
  RightKey : Nat
  ScrollDownKey : Nat
  ScrollUpKey : Nat
  ScrollLeftKey : Nat
  ScrollRightKey : Nat
  CallKey : Nat
  LeftSoftKey : Nat
  RightSoftKey : Nat
  MessagesKey : Nat
deriving DecidableEq

/-- keymaps.GetPhoneKeyMapping (src/keymaps/tcl-flip-2.go): the phone
mapping; the scroll-left and scroll-right actions are unbound (code 0).
Fields the source does not assign hold the Go zero value 0. -/
def getPhoneKeyMapping : KeyMapping where
  ExitKey := 116
  EnterKey := 28
  ToggleMouseKey := 138
  ToggleScrollKey := 105
  ClickKey := 28
  DragKey := 48
  FasterKey := 114
  SlowerKey := 115
  UpKey := 103
  DownKey := 108
  LeftKey := 105
  RightKey := 106
  ScrollUpKey := 139
  ScrollDownKey := 231
  ScrollLeftKey := 0
  ScrollRightKey := 0
  CallKey := 0
  LeftSoftKey := 0
  RightSoftKey := 0
  MessagesKey := 0

/-- keymaps.GetLaptopKeyMapping (src/keymaps/laptop.go). -/
def getLaptopKeyMapping : KeyMapping where
  ExitKey := 1
  EnterKey := 28
  ToggleMouseKey := 29
  ToggleScrollKey := 4
  ClickKey := 57
  DragKey := 32
  FasterKey := 13
  SlowerKey := 12
  UpKey := 103
  DownKey := 108
  LeftKey := 105
  RightKey := 106
  ScrollUpKey := 17
  ScrollDownKey := 31
  ScrollLeftKey := 30
  ScrollRightKey := 32
  CallKey := 0
  LeftSoftKey := 0
  RightSoftKey := 0
  MessagesKey := 0

/-- One command sent to the virtual-mouse sink (uinput.Mouse). -/
inductive MouseCmd where
  | move (dx dy : Int)
  | leftPress
  | leftRelease
  | rightPress
  | rightRelease
  | wheel (horizontal : Bool) (amount : Int)
deriving DecidableEq, BEq

/-- The interpreter-visible part of MouseState: mode, button, flag and
toggle-timing fields, plus the exact-valued speed parameters.  The float64
velocity fields live outside this record (they are only touched by the timer
paths, modelled over the reals below). -/
structure MouseState where
  maxSpeed : ℚ
  speedMulti : ℚ
  acceleration : ℚ
  friction : ℚ
  scrollMaxSpeed : ℚ
  scrollMulti : ℚ
  mouseMode : Bool
  leftBtnPressed : Bool
  rightBtnPressed : Bool
  dragToggleActive : Bool
  upKeyActive : Bool
  downKeyActive : Bool
  leftKeyActive : Bool
  rightKeyActive : Bool
  scrollUpActive : Bool
  scrollDownActive : Bool
  scrollLeftActive : Bool
  scrollRightActive : Bool
  toggleKeyDown : Bool
  toggleKeyDownTime : Int
deriving DecidableEq

/-- NewMouseState: the state at startup (velocities, modelled separately,
start at zero as well). -/
def newMouseState : MouseState where
  maxSpeed := 4
  speedMulti := 1
  acceleration := 0.3
  friction := 0.85
  scrollMaxSpeed := 30
  scrollMulti := 1
  mouseMode := false
  leftBtnPressed := false
  rightBtnPressed := false
  dragToggleActive := false
  upKeyActive := false
  downKeyActive := false
  leftKeyActive := false
  rightKeyActive := false
  scrollUpActive := false
  scrollDownActive := false
  scrollLeftActive := false
  scrollRightActive := false
  toggleKeyDown := false
  toggleKeyDownTime := 0

/-- MouseController.ResetButtons: release each held button (guarded by its
held-flag) and clear the drag toggle. -/
def resetButtons (s : MouseState) : MouseState × List MouseCmd :=
  let r1 : MouseState × List MouseCmd :=
    if s.leftBtnPressed then
      ({ s with leftBtnPressed := false }, [MouseCmd.leftRelease])
    else (s, [])
  let r2 : MouseState × List MouseCmd :=
    if r1.1.rightBtnPressed then
      ({ r1.1 with rightBtnPressed := false }, [MouseCmd.rightRelease])
    else (r1.1, [])
  ({ r2.1 with dragToggleActive := false }, r1.2 ++ r2.2)

/-- MouseController.ToggleMouseMode (main.go): flip the mode; when entering,
wiggle the pointer; when leaving, reset buttons. -/
def toggleMouseMode (s : MouseState) : MouseState × List MouseCmd :=
  let s1 := { s with mouseMode := !s.mouseMode }
  if s1.mouseMode then
    (s1, [MouseCmd.move 1 0, MouseCmd.move 0 (-2)])
  else
    resetButtons s1

/-- Truncation of a rational toward zero, the behaviour of the Go conversion
int32(float64) on in-range values. -/
def ratTrunc (q : ℚ) : Int :=
  if 0 ≤ q then ⌊q⌋ else -⌊-q⌋

/-- MouseController.ToggleMouseMode (part_000 variant): the wiggle moves by
plus and minus int32(MaxSpeed).  (The variant also replaces and closes the
uinput device handle; device lifecycle is outside the model.) -/
def toggleMouseModePart (s : MouseState) : MouseState × List MouseCmd :=
  let s1 := { s with mouseMode := !s.mouseMode }
  if s1.mouseMode then
    (s1, [MouseCmd.move (ratTrunc s.maxSpeed) 0, MouseCmd.move (-(ratTrunc s.maxSpeed)) 0])
  else
    resetButtons s1

/-- MouseController.ToggleDragMode: flip the drag flag; press-and-hold or
release the left button accordingly (unguarded by the button held-flag). -/
def toggleDragMode (s : MouseState) : MouseState × List MouseCmd :=
  let s1 := { s with dragToggleActive := !s.dragToggleActive }
  if s1.dragToggleActive then
    ({ s1 with leftBtnPressed := true }, [MouseCmd.leftPress])
  else
    ({ s1 with leftBtnPressed := false }, [MouseCmd.leftRelease])

/-- MouseController.DecreaseSpeed: decrement MaxSpeed, floor at 1. -/
def decreaseSpeed (s : MouseState) : MouseState :=
  let m := s.maxSpeed - 1
  { s with maxSpeed := if m < 1 then 1 else m }

/-- MouseController.IncreaseSpeed: increment MaxSpeed. -/
def increaseSpeed (s : MouseState) : MouseState :=
  { s with maxSpeed := s.maxSpeed + 1 }

/-- The toggle-key branch of main.go ProcessEvent (lines 327-352): a press
records the timestamp; anything else is treated as the release, the
timestamp and pending flag are cleared, and the elapsed time decides between
long press (toggle mode, suppress) and short press (pass through). -/
def toggleKeyMain (longPress now : Int) (s : MouseState) (e : InputEvent) :
    Int × MouseState × List MouseCmd :=
  if e.value = 1 then
    (MuteEvent, { s with toggleKeyDownTime := now, toggleKeyDown := true }, [])
  else if now - s.toggleKeyDownTime > longPress then
    (MuteEvent, toggleMouseMode { s with toggleKeyDownTime := 0, toggleKeyDown := false })
  else
    (PassThruEvent, { s with toggleKeyDownTime := 0, toggleKeyDown := false }, [])

/-- The mouse-mode switch of main.go ProcessEvent (lines 363-431), embedded
as an if-else chain in source case order (first matching case wins, as in a
Go switch). -/
def mouseModeKeyMain (km : KeyMapping) (s : MouseState) (e : InputEvent) :
    Int × MouseState × List MouseCmd :=
  if e.code = km.EnterKey then
    if e.value = 1 then
      (MuteEvent, { s with leftBtnPressed := true }, [MouseCmd.leftPress])
    else
      (MuteEvent, { s with leftBtnPressed := false }, [MouseCmd.leftRelease])
  else if e.code = km.FasterKey then
    (MuteEvent, if e.value = 1 then increaseSpeed s else s, [])
  else if e.code = km.SlowerKey then
    (MuteEvent, if e.value = 1 then decreaseSpeed s else s, [])
  else if e.code = km.ToggleScrollKey then
    if e.value = 1 then (MuteEvent, toggleDragMode s) else (MuteEvent, s, [])
  else if e.code = km.UpKey then
    (MuteEvent, { s with upKeyActive := decide (e.value ≠ 0) }, [])
  else if e.code = km.DownKey then
    (MuteEvent, { s with downKeyActive := decide (e.value ≠ 0) }, [])
  else if e.code = km.LeftKey then
    (MuteEvent, { s with leftKeyActive := decide (e.value ≠ 0) }, [])
  else if e.code = km.RightKey then
    (MuteEvent, { s with rightKeyActive := decide (e.value ≠ 0) }, [])
  else if e.code = km.ScrollUpKey then
    (MuteEvent, s, [MouseCmd.wheel false 1])
  else if e.code = km.ScrollDownKey then
    (MuteEvent, s, [MouseCmd.wheel false (-1)])
  else if e.code = km.ScrollRightKey then
    (MuteEvent, s, [MouseCmd.wheel true 1])
  else if e.code = km.ScrollLeftKey then
    (MuteEvent, s, [MouseCmd.wheel true (-1)])
  else (PassThruEvent, s, [])

/-- EventProcessor.ProcessEvent of src/main.go, lines 305-432.  The
parameters: longPress is Config.LongPressDuration, now the current wall
clock (time.Now), km the mapping returned by the provider for the device.
Returns (disposition, new state, commands sent to the mouse sink). -/
def processEventMain (longPress now : Int) (km : KeyMapping) (s : MouseState)
    (e : InputEvent) : Int × MouseState × List MouseCmd :=
  if e.evType = EvMsc ∨ e.code = 0 then (PassThruEvent, s, [])
  else if e.evType = EvKey ∧ e.code = km.ExitKey then
    (PassThruEvent, resetButtons { s with mouseMode := false })
  else if e.evType = EvKey ∧ e.code = km.ToggleMouseKey then
    toggleKeyMain longPress now s e
  else if s.mouseMode = false then (PassThruEvent, s, [])
  else mouseModeKeyMain km s e

/-- The toggle-key branch of part_000 ProcessEvent (lines 368-395): an
auto-repeat event (value 2) is suppressed with no state change; otherwise as
in main.go, with the part_000 wiggle on a long press. -/
def toggleKeyPart (longPress now : Int) (s : MouseState) (e : InputEvent) :
    Int × MouseState × List MouseCmd :=
  if e.value = 2 then (MuteEvent, s, [])
  else if e.value = 1 then
    (MuteEvent, { s with toggleKeyDownTime := now, toggleKeyDown := true }, [])
  else if now - s.toggleKeyDownTime > longPress then
    (MuteEvent, toggleMouseModePart { s with toggleKeyDownTime := 0, toggleKeyDown := false })
  else
    (PassThruEvent, { s with toggleKeyDownTime := 0, toggleKeyDown := false }, [])

/-- The mouse-mode switch of part_000 ProcessEvent (lines 406-472), in
source case order: DragKey is the drag toggle and the four scroll keys set
held-flags instead of emitting wheel commands. -/
def mouseModeKeyPart (km : KeyMapping) (s : MouseState) (e : InputEvent) :
    Int × MouseState × List MouseCmd :=
  if e.code = km.EnterKey then
    if e.value = 1 then
      (MuteEvent, { s with leftBtnPressed := true }, [MouseCmd.leftPress])
    else
      (MuteEvent, { s with leftBtnPressed := false }, [MouseCmd.leftRelease])
  else if e.code = km.FasterKey then
    (MuteEvent, if e.value = 1 then increaseSpeed s else s, [])
  else if e.code = km.SlowerKey then
    (MuteEvent, if e.value = 1 then decreaseSpeed s else s, [])
  else if e.code = km.DragKey then
    if e.value = 1 then (MuteEvent, toggleDragMode s) else (MuteEvent, s, [])
  else if e.code = km.UpKey then
    (MuteEvent, { s with upKeyActive := decide (e.value ≠ 0) }, [])
  else if e.code = km.DownKey then
    (MuteEvent, { s with downKeyActive := decide (e.value ≠ 0) }, [])
  else if e.code = km.LeftKey then
    (MuteEvent, { s with leftKeyActive := decide (e.value ≠ 0) }, [])
  else if e.code = km.RightKey then
    (MuteEvent, { s with rightKeyActive := decide (e.value ≠ 0) }, [])
  else if e.code = km.ScrollUpKey then
    (MuteEvent, { s with scrollUpActive := decide (e.value ≠ 0) }, [])
  else if e.code = km.ScrollDownKey then
    (MuteEvent, { s with scrollDownActive := decide (e.value ≠ 0) }, [])
  else if e.code = km.ScrollRightKey then
    (MuteEvent, { s with scrollRightActive := decide (e.value ≠ 0) }, [])
  else if e.code = km.ScrollLeftKey then
    (MuteEvent, { s with scrollLeftActive := decide (e.value ≠ 0) }, [])
  else (PassThruEvent, s, [])

/-- EventProcessor.ProcessEvent of src/unnamed/part_000, lines 348-473: no
EvMsc/code-0 early return, a value==2 guard on the toggle key, DragKey as the
drag toggle, and the four scroll keys set held-flags instead of emitting
wheel commands. -/
def processEventPart (longPress now : Int) (km : KeyMapping) (s : MouseState)
    (e : InputEvent) : Int × MouseState × List MouseCmd :=
  if e.evType = EvKey ∧ e.code = km.ExitKey then
    (PassThruEvent, resetButtons { s with mouseMode := false })
  else if e.evType = EvKey ∧ e.code = km.ToggleMouseKey then
    toggleKeyPart longPress now s e
  else if s.mouseMode = false then (PassThruEvent, s, [])
  else mouseModeKeyPart km s e

/-- The squared Euclidean norm vx*vx + vy*vy exactly as the source spells
it before taking math.Sqrt. -/
def norm2 (v : ℝ × ℝ) : ℝ := v.1 * v.1 + v.2 * v.2

/-- One axis of the acceleration phase of the integrator: accelerate in the
input direction, otherwise apply friction (both variants, identical code). -/
noncomputable def accelAxis (accel friction input v : ℝ) : ℝ :=
  if input ≠ 0 then v + input * accel else v * friction

/-- The clamp phase: if the Euclidean speed exceeds the cap, rescale both
components by cap/speed (both variants, identical code). -/
noncomputable def clampSpeed (cap : ℝ) (v : ℝ × ℝ) : ℝ × ℝ :=
  if Real.sqrt (norm2 v) > cap then
    (v.1 * (cap / Real.sqrt (norm2 v)), v.2 * (cap / Real.sqrt (norm2 v)))
  else v

/-- The dead-zone phase of main.go AccelerateAndMove: an axis with magnitude
below 0.1 snaps to exactly zero. -/
noncomputable def deadZone (v : ℝ × ℝ) : ℝ × ℝ :=
  (if |v.1| < 0.1 then 0 else v.1, if |v.2| < 0.1 then 0 else v.2)

/-- The velocity update of MouseController.AccelerateAndMove
(src/main.go lines 156-187): acceleration/friction, clamp to
actualSpeed = MaxSpeed * SpeedMulti, then the dead-zone cut-off. -/
noncomputable def accelStepMain (accel friction cap inputX inputY : ℝ)
    (v : ℝ × ℝ) : ℝ × ℝ :=
  deadZone (clampSpeed cap
    (accelAxis accel friction inputX v.1, accelAxis accel friction inputY v.2))

/-- MouseController.AccelerateVelocity (src/unnamed/part_000 lines 176-212):
same acceleration/friction and clamp, but the dead-zone cut-off is commented
out in this variant. -/
noncomputable def accelerateVelocityPart (accel friction cap inputX inputY : ℝ)
    (v : ℝ × ℝ) : ℝ × ℝ :=
  clampSpeed cap
    (accelAxis accel friction inputX v.1, accelAxis accel friction inputY v.2)

/-- Truncation of a real toward zero: the Go conversion int32(float64). -/
noncomputable def realTrunc (x : ℝ) : Int :=
  if 0 ≤ x then ⌊x⌋ else -⌊-x⌋

/-- One tick of DeviceManager.processMovement (src/main.go lines 538-572):
with pointer mode off, zero the velocities and skip; otherwise build the
input vector from the directional held-flags and run AccelerateAndMove,
emitting a move when the resulting velocity is non-zero. -/
noncomputable def movementTick (s : MouseState) (v : ℝ × ℝ) :
    (ℝ × ℝ) × List MouseCmd :=
  if s.mouseMode = false then ((0, 0), [])
  else
    let inputX : ℝ := (if s.leftKeyActive then -(s.maxSpeed : ℝ) else 0)
      + (if s.rightKeyActive then (s.maxSpeed : ℝ) else 0)
    let inputY : ℝ := (if s.upKeyActive then -(s.maxSpeed : ℝ) else 0)
      + (if s.downKeyActive then (s.maxSpeed : ℝ) else 0)
    let w := accelStepMain (s.acceleration : ℝ) (s.friction : ℝ)
      ((s.maxSpeed : ℝ) * (s.speedMulti : ℝ)) inputX inputY v
    (w, if w.1 ≠ 0 ∨ w.2 ≠ 0 then [MouseCmd.move (realTrunc w.1) (realTrunc w.2)] else [])

/-- One tick of DeviceManager.processScroll (src/unnamed/part_000 lines
615-652): with pointer mode off, zero the scroll velocities and skip;
otherwise build the scroll input vector from the scroll held-flags and emit
the two wheel commands (the accelerated variant is commented out in the
source, so the scroll velocities are untouched on this path).  Returns the
new scroll velocity pair and the commands. -/
def scrollTick (s : MouseState) (v : ℚ × ℚ) : (ℚ × ℚ) × List MouseCmd :=
  if s.mouseMode = false then ((0, 0), [])
  else
    let scrollInputX : ℚ := (if s.scrollLeftActive then s.scrollMaxSpeed else 0)
      + (if s.scrollRightActive then -s.scrollMaxSpeed else 0)
    let scrollInputY : ℚ := (if s.scrollUpActive then s.scrollMaxSpeed else 0)
      + (if s.scrollDownActive then -s.scrollMaxSpeed else 0)
    (v,
      [MouseCmd.wheel false (ratTrunc (scrollInputY * s.scrollMulti)),
       MouseCmd.wheel true (ratTrunc (scrollInputX * s.scrollMulti))])

/-! ## Helper lemmas about the button-reset and mode-toggle operations -/

theorem resetButtons_mouseMode (s : MouseState) :
    (resetButtons s).1.mouseMode = s.mouseMode := by
  rcases hl : s.leftBtnPressed <;> rcases hr : s.rightBtnPressed <;>
    simp [resetButtons, hl, hr]

theorem resetButtons_leftBtn (s : MouseState) :
    (resetButtons s).1.leftBtnPressed = false := by
  rcases hl : s.leftBtnPressed <;> rcases hr : s.rightBtnPressed <;>
    simp [resetButtons, hl, hr]

theorem resetButtons_rightBtn (s : MouseState) :
    (resetButtons s).1.rightBtnPressed = false := by
  rcases hl : s.leftBtnPressed <;> rcases hr : s.rightBtnPressed <;>
    simp [resetButtons, hl, hr]

theorem resetButtons_drag (s : MouseState) :
    (resetButtons s).1.dragToggleActive = false := by
  rcases hl : s.leftBtnPressed <;> rcases hr : s.rightBtnPressed <;>
    simp [resetButtons, hl, hr]

theorem resetButtons_upKey (s : MouseState) :
    (resetButtons s).1.upKeyActive = s.upKeyActive := by
  rcases hl : s.leftBtnPressed <;> rcases hr : s.rightBtnPressed <;>
    simp [resetButtons, hl, hr]

theorem resetButtons_count_left (s : MouseState) :
    (resetButtons s).2.count MouseCmd.leftRelease
      = if s.leftBtnPressed then 1 else 0 := by
  rcases hl : s.leftBtnPressed <;> rcases hr : s.rightBtnPressed <;>
    simp [resetButtons, hl, hr] <;> rfl

theorem resetButtons_count_right (s : MouseState) :
    (resetButtons s).2.count MouseCmd.rightRelease
      = if s.rightBtnPressed then 1 else 0 := by
  rcases hl : s.leftBtnPressed <;> rcases hr : s.rightBtnPressed <;>
    simp [resetButtons, hl, hr] <;> rfl

theorem toggleMouseMode_mouseMode (s : MouseState) :
    (toggleMouseMode s).1.mouseMode = !s.mouseMode := by
  unfold toggleMouseMode
  rcases h : s.mouseMode <;> simp [h, resetButtons_mouseMode]

theorem toggleMouseModePart_mouseMode (s : MouseState) :
    (toggleMouseModePart s).1.mouseMode = !s.mouseMode := by
  unfold toggleMouseModePart
  rcases h : s.mouseMode <;> simp [h, resetButtons_mouseMode]

theorem movementTick_off (s : MouseState) (v : ℝ × ℝ) (h : s.mouseMode = false) :
    movementTick s v = ((0, 0), []) := by
  unfold movementTick
  rw [if_pos h]

/-! ## Claim theorems -/

theorem toggleKeyMain_disp (lp now : Int) (s : MouseState) (e : InputEvent) :
    (toggleKeyMain lp now s e).1 = MuteEvent
      ∨ (toggleKeyMain lp now s e).1 = PassThruEvent := by
  unfold toggleKeyMain
  split_ifs <;> first | (left; rfl) | (right; rfl)

theorem toggleKeyPart_disp (lp now : Int) (s : MouseState) (e : InputEvent) :
    (toggleKeyPart lp now s e).1 = MuteEvent
      ∨ (toggleKeyPart lp now s e).1 = PassThruEvent := by
  unfold toggleKeyPart
  split_ifs <;> first | (left; rfl) | (right; rfl)

theorem mouseModeKeyMain_disp (km : KeyMapping) (s : MouseState) (e : InputEvent) :
    (mouseModeKeyMain km s e).1 = MuteEvent
      ∨ (mouseModeKeyMain km s e).1 = PassThruEvent := by
  unfold mouseModeKeyMain
  by_cases h0 : e.code = km.EnterKey
  · rw [if_pos h0]
    by_cases hv0 : e.value = 1
    · rw [if_pos hv0]; left; rfl
    · rw [if_neg hv0]; left; rfl
  rw [if_neg h0]
  by_cases h1 : e.code = km.FasterKey
  · rw [if_pos h1]; left; rfl
  rw [if_neg h1]
  by_cases h2 : e.code = km.SlowerKey
  · rw [if_pos h2]; left; rfl
  rw [if_neg h2]
  by_cases h3 : e.code = km.ToggleScrollKey
  · rw [if_pos h3]
    by_cases hv3 : e.value = 1
    · rw [if_pos hv3]; left; rfl
    · rw [if_neg hv3]; left; rfl
  rw [if_neg h3]
  by_cases h4 : e.code = km.UpKey
  · rw [if_pos h4]; left; rfl
  rw [if_neg h4]
  by_cases h5 : e.code = km.DownKey
  · rw [if_pos h5]; left; rfl
  rw [if_neg h5]
  by_cases h6 : e.code = km.LeftKey
  · rw [if_pos h6]; left; rfl
  rw [if_neg h6]
  by_cases h7 : e.code = km.RightKey
  · rw [if_pos h7]; left; rfl
  rw [if_neg h7]
  by_cases h8 : e.code = km.ScrollUpKey
  · rw [if_pos h8]; left; rfl
  rw [if_neg h8]
  by_cases h9 : e.code = km.ScrollDownKey
  · rw [if_pos h9]; left; rfl
  rw [if_neg h9]
  by_cases h10 : e.code = km.ScrollRightKey
  · rw [if_pos h10]; left; rfl
  rw [if_neg h10]
  by_cases h11 : e.code = km.ScrollLeftKey
  · rw [if_pos h11]; left; rfl
  rw [if_neg h11]
  right; rfl

theorem mouseModeKeyPart_disp (km : KeyMapping) (s : MouseState) (e : InputEvent) :
    (mouseModeKeyPart km s e).1 = MuteEvent
      ∨ (mouseModeKeyPart km s e).1 = PassThruEvent := by
  unfold mouseModeKeyPart
  by_cases h0 : e.code = km.EnterKey
  · rw [if_pos h0]
    by_cases hv0 : e.value = 1
    · rw [if_pos hv0]; left; rfl
    · rw [if_neg hv0]; left; rfl
  rw [if_neg h0]
  by_cases h1 : e.code = km.FasterKey
  · rw [if_pos h1]; left; rfl
  rw [if_neg h1]
  by_cases h2 : e.code = km.SlowerKey
  · rw [if_pos h2]; left; rfl
  rw [if_neg h2]
  by_cases h3 : e.code = km.DragKey
  · rw [if_pos h3]
    by_cases hv3 : e.value = 1
    · rw [if_pos hv3]; left; rfl
    · rw [if_neg hv3]; left; rfl
  rw [if_neg h3]
  by_cases h4 : e.code = km.UpKey
  · rw [if_pos h4]; left; rfl
  rw [if_neg h4]
  by_cases h5 : e.code = km.DownKey
  · rw [if_pos h5]; left; rfl
  rw [if_neg h5]
  by_cases h6 : e.code = km.LeftKey
  · rw [if_pos h6]; left; rfl
  rw [if_neg h6]
  by_cases h7 : e.code = km.RightKey
  · rw [if_pos h7]; left; rfl
  rw [if_neg h7]
  by_cases h8 : e.code = km.ScrollUpKey
  · rw [if_pos h8]; left; rfl
  rw [if_neg h8]
  by_cases h9 : e.code = km.ScrollDownKey
  · rw [if_pos h9]; left; rfl
  rw [if_neg h9]
  by_cases h10 : e.code = km.ScrollRightKey
  · rw [if_pos h10]; left; rfl
  rw [if_neg h10]
  by_cases h11 : e.code = km.ScrollLeftKey
  · rw [if_pos h11]; left; rfl
  rw [if_neg h11]
  right; rfl


/-- Claim C8: for every input event and every interpreter state, both
interpreter variants terminate (they are total Lean functions) and return a
disposition that is one of exactly two outcomes, MuteEvent (suppress) or
PassThruEvent (pass-through); every key code not matching a logical action of
the active mapping falls into the default pass-through branch. -/
theorem C8_total_disposition (lp now : Int) (km : KeyMapping) (s : MouseState)
    (e : InputEvent) :
    ((processEventMain lp now km s e).1 = MuteEvent
      ∨ (processEventMain lp now km s e).1 = PassThruEvent)
    ∧ ((processEventPart lp now km s e).1 = MuteEvent
      ∨ (processEventPart lp now km s e).1 = PassThruEvent) := by
  constructor
  · unfold processEventMain
    by_cases h0 : e.evType = EvMsc ∨ e.code = 0
    · rw [if_pos h0]; right; rfl
    rw [if_neg h0]
    by_cases h1 : e.evType = EvKey ∧ e.code = km.ExitKey
    · rw [if_pos h1]; right; rfl
    rw [if_neg h1]
    by_cases h2 : e.evType = EvKey ∧ e.code = km.ToggleMouseKey
    · rw [if_pos h2]; exact toggleKeyMain_disp lp now s e
    rw [if_neg h2]
    by_cases h3 : s.mouseMode = false
    · rw [if_pos h3]; right; rfl
    rw [if_neg h3]
    exact mouseModeKeyMain_disp km s e
  · unfold processEventPart
    by_cases h1 : e.evType = EvKey ∧ e.code = km.ExitKey
    · rw [if_pos h1]; right; rfl
    rw [if_neg h1]
    by_cases h2 : e.evType = EvKey ∧ e.code = km.ToggleMouseKey
    · rw [if_pos h2]; exact toggleKeyPart_disp lp now s e
    rw [if_neg h2]
    by_cases h3 : s.mouseMode = false
    · rw [if_pos h3]; right; rfl
    rw [if_neg h3]
    exact mouseModeKeyPart_disp km s e

/-- Claim C4 (code_bug evidence): the main.go interpreter has no value==2
guard, so an auto-repeat of the toggle key while it is pressed is treated as
a release: here (press recorded at time 0, repeat at time 100 which is below
the long-press threshold) it returns pass-through, not suppress, and clears
the pending-press flag and the recorded timestamp.  The part_000 interpreter
implements the specified behaviour: suppress with the state unchanged. -/
theorem C4_main_repeat_treated_as_release :
    (processEventMain defaultLongPress 100 getPhoneKeyMapping
        { newMouseState with toggleKeyDown := true, toggleKeyDownTime := 0 }
        ⟨EvKey, 138, 2⟩).1 = PassThruEvent
    ∧ (processEventMain defaultLongPress 100 getPhoneKeyMapping
        { newMouseState with toggleKeyDown := true, toggleKeyDownTime := 0 }
        ⟨EvKey, 138, 2⟩).2.1.toggleKeyDown = false
    ∧ processEventPart defaultLongPress 100 getPhoneKeyMapping
        { newMouseState with toggleKeyDown := true, toggleKeyDownTime := 0 }
        ⟨EvKey, 138, 2⟩
      = (MuteEvent,
          { newMouseState with toggleKeyDown := true, toggleKeyDownTime := 0 }, []) :=
  ⟨by decide, by decide, rfl⟩

/-- Claim C9 (code_bug evidence): in the phone mapping the scroll-right and
scroll-left actions are unbound (code 0), yet the part_000 interpreter has no
code==0 guard, so a key event with code 0 in pointer mode matches the
ScrollRightKey case, sets the scroll-right held-flag and is suppressed; the
next scroll tick then emits a wheel command with a non-zero amount. -/
theorem C9_part_zero_code_fires_scroll :
    getPhoneKeyMapping.ScrollRightKey = 0
    ∧ processEventPart defaultLongPress 0 getPhoneKeyMapping
        { newMouseState with mouseMode := true } ⟨EvKey, 0, 1⟩
      = (MuteEvent,
          { newMouseState with mouseMode := true, scrollRightActive := true }, [])
    ∧ (scrollTick { newMouseState with mouseMode := true, scrollRightActive := true }
        (0, 0)).2
      = [MouseCmd.wheel false 0, MouseCmd.wheel true (-30)] :=
  ⟨rfl, rfl, by norm_num [scrollTick, newMouseState, ratTrunc]⟩

/-- Claim C5 counterexample: in the main.go interpreter a scroll-key event in
pointer mode (here the phone scroll-up key 139) emits a wheel command
directly from the event path and leaves the state unchanged (no scroll
held-flag is set), contradicting the claim that the event path only sets a
held-flag and never emits a wheel command. -/
theorem C5_counterexample :
    (processEventMain defaultLongPress 0 getPhoneKeyMapping
        { newMouseState with mouseMode := true } ⟨EvKey, 139, 1⟩).2.2
      = [MouseCmd.wheel false 1]
    ∧ (processEventMain defaultLongPress 0 getPhoneKeyMapping
        { newMouseState with mouseMode := true } ⟨EvKey, 139, 1⟩).2.1
      = { newMouseState with mouseMode := true } :=
  ⟨by decide, rfl⟩

/-- Claim C6 counterexample: forcing pointer mode off with the exit key while
the up-directional key is held leaves the up held-flag true (ResetButtons
only clears the button and drag flags, and the motion tick only zeroes the
velocities), contradicting the claim that all four directional held-flags
are false afterwards. -/
theorem C6_counterexample :
    (processEventMain defaultLongPress 0 getPhoneKeyMapping
        { newMouseState with
            mouseMode := true, upKeyActive := true, leftBtnPressed := true }
        ⟨EvKey, 116, 1⟩).2.1.upKeyActive = true := by decide

/-- Claim C7 counterexample: with the left button already released, an
enter-key release event in pointer mode still emits a LeftRelease sink call
(the main.go enter path is unguarded by the held-flag), contradicting the
claim that no duplicate release is emitted on the enter/click path. -/
theorem C7_counterexample :
    newMouseState.leftBtnPressed = false
    ∧ (processEventMain defaultLongPress 0 getPhoneKeyMapping
        { newMouseState with mouseMode := true } ⟨EvKey, 28, 0⟩).2.2
      = [MouseCmd.leftRelease] :=
  ⟨rfl, by decide⟩

/-- Claim C1: for a toggle-key press (value 1) followed by the matching
release (value 0), processed by the main.go interpreter with the default
225 ms threshold: the press is suppressed and records the press time; if the
elapsed time t1 - t0 is at most 225 ms the release is passed through and
pointer mode is unchanged; if it exceeds 225 ms the release is suppressed
and pointer mode is flipped exactly once. -/
theorem C1_toggle_semantics (km : KeyMapping) (s : MouseState) (t0 t1 : Int)
    (hk0 : km.ToggleMouseKey ≠ 0) (hke : km.ToggleMouseKey ≠ km.ExitKey) :
    processEventMain defaultLongPress t0 km s ⟨EvKey, km.ToggleMouseKey, 1⟩
        = (MuteEvent, { s with toggleKeyDownTime := t0, toggleKeyDown := true }, [])
    ∧ (t1 - t0 ≤ 225 →
        (processEventMain defaultLongPress t1 km
            { s with toggleKeyDownTime := t0, toggleKeyDown := true }
            ⟨EvKey, km.ToggleMouseKey, 0⟩).1 = PassThruEvent
          ∧ (processEventMain defaultLongPress t1 km
              { s with toggleKeyDownTime := t0, toggleKeyDown := true }
              ⟨EvKey, km.ToggleMouseKey, 0⟩).2.1.mouseMode = s.mouseMode)
    ∧ (t1 - t0 > 225 →
        (processEventMain defaultLongPress t1 km
            { s with toggleKeyDownTime := t0, toggleKeyDown := true }
            ⟨EvKey, km.ToggleMouseKey, 0⟩).1 = MuteEvent
          ∧ (processEventMain defaultLongPress t1 km
              { s with toggleKeyDownTime := t0, toggleKeyDown := true }
              ⟨EvKey, km.ToggleMouseKey, 0⟩).2.1.mouseMode = !s.mouseMode) := by
  refine ⟨?_, ?_, ?_⟩
  · simp [processEventMain, toggleKeyMain, EvKey, EvMsc, hk0, hke]
  · intro h
    have hng : ¬ (225 < t1 - t0) := by omega
    constructor <;>
      simp [processEventMain, toggleKeyMain, EvKey, EvMsc, hk0, hke, defaultLongPress, hng]
  · intro h
    constructor <;>
      simp [processEventMain, toggleKeyMain, EvKey, EvMsc, hk0, hke, defaultLongPress, h,
        toggleMouseMode_mouseMode]

/-- Claim C1 witness: the phone mapping with a press at 0 ms and the release
at 300 ms satisfies the hypotheses and the conclusion of the toggle-semantics
theorem. -/
theorem C1_witness :
    getPhoneKeyMapping.ToggleMouseKey ≠ 0
    ∧ getPhoneKeyMapping.ToggleMouseKey ≠ getPhoneKeyMapping.ExitKey
    ∧ (processEventMain defaultLongPress 0 getPhoneKeyMapping newMouseState
          ⟨EvKey, getPhoneKeyMapping.ToggleMouseKey, 1⟩
          = (MuteEvent,
              { newMouseState with toggleKeyDownTime := 0, toggleKeyDown := true }, [])
        ∧ ((300 : Int) - 0 ≤ 225 →
            (processEventMain defaultLongPress 300 getPhoneKeyMapping
                { newMouseState with toggleKeyDownTime := 0, toggleKeyDown := true }
                ⟨EvKey, getPhoneKeyMapping.ToggleMouseKey, 0⟩).1 = PassThruEvent
              ∧ (processEventMain defaultLongPress 300 getPhoneKeyMapping
                  { newMouseState with toggleKeyDownTime := 0, toggleKeyDown := true }
                  ⟨EvKey, getPhoneKeyMapping.ToggleMouseKey, 0⟩).2.1.mouseMode
                = newMouseState.mouseMode)
        ∧ ((300 : Int) - 0 > 225 →
            (processEventMain defaultLongPress 300 getPhoneKeyMapping
                { newMouseState with toggleKeyDownTime := 0, toggleKeyDown := true }
                ⟨EvKey, getPhoneKeyMapping.ToggleMouseKey, 0⟩).1 = MuteEvent
              ∧ (processEventMain defaultLongPress 300 getPhoneKeyMapping
                  { newMouseState with toggleKeyDownTime := 0, toggleKeyDown := true }
                  ⟨EvKey, getPhoneKeyMapping.ToggleMouseKey, 0⟩).2.1.mouseMode
                = !newMouseState.mouseMode)) :=
  ⟨by decide, by decide,
    C1_toggle_semantics getPhoneKeyMapping newMouseState 0 300 (by decide) (by decide)⟩

/-- Claim C10: with no toggle press pending (the recorded press timestamp is
the zero time, as at startup), a lone toggle-key release still computes the
elapsed time from the zero timestamp; since the wall clock exceeds the
225 ms threshold, the main.go interpreter suppresses the event and flips
pointer mode. -/
theorem C10_lone_release_toggles (km : KeyMapping) (s : MouseState) (now : Int)
    (hz : s.toggleKeyDownTime = 0) (hnow : 225 < now)
    (hk0 : km.ToggleMouseKey ≠ 0) (hke : km.ToggleMouseKey ≠ km.ExitKey) :
    (processEventMain defaultLongPress now km s
        ⟨EvKey, km.ToggleMouseKey, 0⟩).1 = MuteEvent
    ∧ (processEventMain defaultLongPress now km s
        ⟨EvKey, km.ToggleMouseKey, 0⟩).2.1.mouseMode = !s.mouseMode := by
  have h : 225 < now - s.toggleKeyDownTime := by omega
  constructor <;>
    simp [processEventMain, toggleKeyMain, EvKey, EvMsc, hk0, hke, defaultLongPress, h,
      toggleMouseMode_mouseMode]

/-- Claim C10 witness: at startup state with the phone mapping and wall
clock 1000 ms, a lone toggle-key release is suppressed and flips pointer
mode. -/
theorem C10_witness :
    newMouseState.toggleKeyDownTime = 0
    ∧ (225 : Int) < 1000
    ∧ (processEventMain defaultLongPress 1000 getPhoneKeyMapping newMouseState
        ⟨EvKey, getPhoneKeyMapping.ToggleMouseKey, 0⟩).1 = MuteEvent
    ∧ (processEventMain defaultLongPress 1000 getPhoneKeyMapping newMouseState
        ⟨EvKey, getPhoneKeyMapping.ToggleMouseKey, 0⟩).2.1.mouseMode
      = !newMouseState.mouseMode :=
  ⟨rfl, by decide,
    (C10_lone_release_toggles getPhoneKeyMapping newMouseState 1000 rfl (by decide)
      (by decide) (by decide)).1,
    (C10_lone_release_toggles getPhoneKeyMapping newMouseState 1000 rfl (by decide)
      (by decide) (by decide)).2⟩

/-- Claim C5 (amended): in pointer mode, in the part_000 interpreter, a key
event whose code equals a scroll-directional key of the active mapping and
does not collide with an earlier-matched action key sets the corresponding
scroll held-flag to (value ≠ 0), is suppressed, and emits no mouse command
(scroll output is produced only by the scroll timer); the four cases follow
the Go switch order ScrollUp, ScrollDown, ScrollRight, ScrollLeft. -/
theorem C5_amended_scroll_flags (km : KeyMapping) (s : MouseState) (now v : Int)
    (code : Nat) (hmode : s.mouseMode = true)
    (h1 : code ≠ km.ExitKey) (h2 : code ≠ km.ToggleMouseKey) (h3 : code ≠ km.EnterKey)
    (h4 : code ≠ km.FasterKey) (h5 : code ≠ km.SlowerKey) (h6 : code ≠ km.DragKey)
    (h7 : code ≠ km.UpKey) (h8 : code ≠ km.DownKey) (h9 : code ≠ km.LeftKey)
    (h10 : code ≠ km.RightKey) :
    (code = km.ScrollUpKey →
      processEventPart defaultLongPress now km s ⟨EvKey, code, v⟩
        = (MuteEvent, { s with scrollUpActive := decide (v ≠ 0) }, []))
    ∧ (code ≠ km.ScrollUpKey → code = km.ScrollDownKey →
      processEventPart defaultLongPress now km s ⟨EvKey, code, v⟩
        = (MuteEvent, { s with scrollDownActive := decide (v ≠ 0) }, []))
    ∧ (code ≠ km.ScrollUpKey → code ≠ km.ScrollDownKey → code = km.ScrollRightKey →
      processEventPart defaultLongPress now km s ⟨EvKey, code, v⟩
        = (MuteEvent, { s with scrollRightActive := decide (v ≠ 0) }, []))
    ∧ (code ≠ km.ScrollUpKey → code ≠ km.ScrollDownKey → code ≠ km.ScrollRightKey →
        code = km.ScrollLeftKey →
      processEventPart defaultLongPress now km s ⟨EvKey, code, v⟩
        = (MuteEvent, { s with scrollLeftActive := decide (v ≠ 0) }, [])) := by
  refine ⟨?_, ?_, ?_, ?_⟩
  · intro hk
    subst hk
    simp [processEventPart, mouseModeKeyPart, EvKey, hmode, h1, h2, h3, h4, h5, h6,
      h7, h8, h9, h10]
  · intro hn1 hk
    subst hk
    simp [processEventPart, mouseModeKeyPart, EvKey, hmode, h1, h2, h3, h4, h5, h6,
      h7, h8, h9, h10, hn1]
  · intro hn1 hn2 hk
    subst hk
    simp [processEventPart, mouseModeKeyPart, EvKey, hmode, h1, h2, h3, h4, h5, h6,
      h7, h8, h9, h10, hn1, hn2]
  · intro hn1 hn2 hn3 hk
    subst hk
    simp [processEventPart, mouseModeKeyPart, EvKey, hmode, h1, h2, h3, h4, h5, h6,
      h7, h8, h9, h10, hn1, hn2, hn3]

/-- Claim C5 witness: the phone scroll-up key (139) pressed in pointer mode
satisfies the hypotheses, and the four case conclusions hold at that input. -/
theorem C5_witness :
    ({ newMouseState with mouseMode := true } : MouseState).mouseMode = true
    ∧ ((139 : Nat) = getPhoneKeyMapping.ScrollUpKey →
      processEventPart defaultLongPress 0 getPhoneKeyMapping
          { newMouseState with mouseMode := true } ⟨EvKey, 139, 1⟩
        = (MuteEvent,
            { newMouseState with
                mouseMode := true, scrollUpActive := decide ((1 : Int) ≠ 0) }, [])) :=
  ⟨rfl,
    (C5_amended_scroll_flags getPhoneKeyMapping
      { newMouseState with mouseMode := true } 0 1 139 rfl
      (by decide) (by decide) (by decide) (by decide) (by decide) (by decide)
      (by decide) (by decide) (by decide) (by decide)).1⟩

/-- Claim C6 (amended): forcing pointer mode off via the exit key, or via a
long-press toggle while pointer mode is on, performs exactly one release
sink call per held mouse button and leaves the button held-flags and the
drag-toggle flag false; the next motion tick zeroes the velocities and emits
nothing.  (The four directional held-flags are not cleared by this path;
they are merely ignored while pointer mode is off.) -/
theorem C6_amended_mode_exit (km : KeyMapping) (s : MouseState) (now v : Int)
    (vel : ℝ × ℝ) (hk : km.ExitKey ≠ 0) :
    (processEventMain defaultLongPress now km s ⟨EvKey, km.ExitKey, v⟩).1 = PassThruEvent
    ∧ (processEventMain defaultLongPress now km s ⟨EvKey, km.ExitKey, v⟩).2.1.mouseMode
        = false
    ∧ (processEventMain defaultLongPress now km s ⟨EvKey, km.ExitKey, v⟩).2.1.leftBtnPressed
        = false
    ∧ (processEventMain defaultLongPress now km s ⟨EvKey, km.ExitKey, v⟩).2.1.rightBtnPressed
        = false
    ∧ (processEventMain defaultLongPress now km s ⟨EvKey, km.ExitKey, v⟩).2.1.dragToggleActive
        = false
    ∧ ((processEventMain defaultLongPress now km s ⟨EvKey, km.ExitKey, v⟩).2.2.count
          MouseCmd.leftRelease = if s.leftBtnPressed then 1 else 0)
    ∧ ((processEventMain defaultLongPress now km s ⟨EvKey, km.ExitKey, v⟩).2.2.count
          MouseCmd.rightRelease = if s.rightBtnPressed then 1 else 0)
    ∧ movementTick (processEventMain defaultLongPress now km s ⟨EvKey, km.ExitKey, v⟩).2.1 vel
        = ((0, 0), [])
    ∧ (s.mouseMode = true →
        (toggleMouseMode s).1.mouseMode = false
        ∧ (toggleMouseMode s).1.leftBtnPressed = false
        ∧ (toggleMouseMode s).1.rightBtnPressed = false
        ∧ (toggleMouseMode s).1.dragToggleActive = false
        ∧ ((toggleMouseMode s).2.count MouseCmd.leftRelease
            = if s.leftBtnPressed then 1 else 0)
        ∧ ((toggleMouseMode s).2.count MouseCmd.rightRelease
            = if s.rightBtnPressed then 1 else 0)
        ∧ movementTick (toggleMouseMode s).1 vel = ((0, 0), [])) := by
  have hred : processEventMain defaultLongPress now km s ⟨EvKey, km.ExitKey, v⟩
      = (PassThruEvent, resetButtons { s with mouseMode := false }) := by
    simp [processEventMain, EvKey, EvMsc, hk]
  rw [hred]
  refine ⟨rfl, ?_, ?_, ?_, ?_, ?_, ?_, ?_, ?_⟩
  · simp [resetButtons_mouseMode]
  · simp [resetButtons_leftBtn]
  · simp [resetButtons_rightBtn]
  · simp [resetButtons_drag]
  · simp [resetButtons_count_left]
  · simp [resetButtons_count_right]
  · exact movementTick_off _ _ (by simp [resetButtons_mouseMode])
  · intro hmode
    have hred2 : toggleMouseMode s = resetButtons { s with mouseMode := false } := by
      simp [toggleMouseMode, hmode]
    rw [hred2]
    refine ⟨?_, ?_, ?_, ?_, ?_, ?_, ?_⟩
    · simp [resetButtons_mouseMode]
    · simp [resetButtons_leftBtn]
    · simp [resetButtons_rightBtn]
    · simp [resetButtons_drag]
    · simp [resetButtons_count_left]
    · simp [resetButtons_count_right]
    · exact movementTick_off _ _ (by simp [resetButtons_mouseMode])

/-- Claim C6 witness: exit-key event with both buttons held and the up key
active, followed by a motion tick: one release per button, flags cleared,
velocities zeroed. -/
theorem C6_witness :
    getPhoneKeyMapping.ExitKey ≠ 0
    ∧ (processEventMain defaultLongPress 0 getPhoneKeyMapping
        { newMouseState with
            mouseMode := true, leftBtnPressed := true, rightBtnPressed := true,
            upKeyActive := true }
        ⟨EvKey, getPhoneKeyMapping.ExitKey, 1⟩).1 = PassThruEvent
    ∧ ((processEventMain defaultLongPress 0 getPhoneKeyMapping
        { newMouseState with
            mouseMode := true, leftBtnPressed := true, rightBtnPressed := true,
            upKeyActive := true }
        ⟨EvKey, getPhoneKeyMapping.ExitKey, 1⟩).2.2.count MouseCmd.leftRelease
      = if ({ newMouseState with
            mouseMode := true, leftBtnPressed := true, rightBtnPressed := true,
            upKeyActive := true } : MouseState).leftBtnPressed then 1 else 0)
    ∧ movementTick (processEventMain defaultLongPress 0 getPhoneKeyMapping
        { newMouseState with
            mouseMode := true, leftBtnPressed := true, rightBtnPressed := true,
            upKeyActive := true }
        ⟨EvKey, getPhoneKeyMapping.ExitKey, 1⟩).2.1 ((3 : ℝ), (4 : ℝ)) = ((0, 0), []) := by
  have h := C6_amended_mode_exit getPhoneKeyMapping
    { newMouseState with
        mouseMode := true, leftBtnPressed := true, rightBtnPressed := true,
        upKeyActive := true }
    0 1 ((3 : ℝ), (4 : ℝ)) (by decide)
  exact ⟨by decide, h.1, h.2.2.2.2.2.1, h.2.2.2.2.2.2.2.1⟩

/-- Claim C7 (amended): held-flags are idempotent under repeated press or
release events (the enter path sets the flag to the event state rather than
toggling it), and the reset path never emits a release for a button that is
not held (a second ResetButtons emits nothing and changes nothing); the
enter/click sink call itself, however, is emitted unconditionally, so a
release event for an already-released button repeats the LeftRelease call. -/
theorem C7_amended_idempotence (s : MouseState) (v : Int) (hmode : s.mouseMode = true) :
    ((resetButtons s).2.count MouseCmd.leftRelease = if s.leftBtnPressed then 1 else 0)
    ∧ ((resetButtons s).2.count MouseCmd.rightRelease = if s.rightBtnPressed then 1 else 0)
    ∧ resetButtons (resetButtons s).1 = ((resetButtons s).1, [])
    ∧ ((processEventMain defaultLongPress 0 getPhoneKeyMapping s ⟨EvKey, 28, v⟩).2.1.leftBtnPressed
        = decide (v = 1))
    ∧ ((processEventMain defaultLongPress 0 getPhoneKeyMapping s ⟨EvKey, 28, v⟩).2.2
        = [if v = 1 then MouseCmd.leftPress else MouseCmd.leftRelease]) := by
  refine ⟨resetButtons_count_left s, resetButtons_count_right s, ?_, ?_, ?_⟩
  · rcases hl : s.leftBtnPressed <;> rcases hr : s.rightBtnPressed <;>
      simp [resetButtons, hl, hr]
  · by_cases hv : v = 1 <;>
      simp [processEventMain, mouseModeKeyMain, EvKey, EvMsc, getPhoneKeyMapping, hmode, hv]
  · by_cases hv : v = 1 <;>
      simp [processEventMain, mouseModeKeyMain, EvKey, EvMsc, getPhoneKeyMapping, hmode, hv]

/-- Claim C7 witness: at a pointer-mode state with no button held, the
conclusions hold for a release event (value 0): the reset path emits
nothing new, the flag stays false, and the unconditional LeftRelease call
is visible in the command list. -/
theorem C7_witness :
    ({ newMouseState with mouseMode := true } : MouseState).mouseMode = true
    ∧ resetButtons (resetButtons { newMouseState with mouseMode := true }).1
      = ((resetButtons { newMouseState with mouseMode := true }).1, [])
    ∧ ((processEventMain defaultLongPress 0 getPhoneKeyMapping
        { newMouseState with mouseMode := true } ⟨EvKey, 28, 0⟩).2.1.leftBtnPressed
      = decide ((0 : Int) = 1)) := by
  have h := C7_amended_idempotence { newMouseState with mouseMode := true } 0 rfl
  exact ⟨rfl, h.2.2.1, h.2.2.2.1⟩

/-! ## Lemmas about the motion integrator -/

theorem norm2_nonneg (v : ℝ × ℝ) : 0 ≤ norm2 v := by
  unfold norm2
  nlinarith [mul_self_nonneg v.1, mul_self_nonneg v.2]

theorem clampSpeed_abs_le (cap : ℝ) (hcap : 0 ≤ cap) (v : ℝ × ℝ) :
    |(clampSpeed cap v).1| ≤ |v.1| ∧ |(clampSpeed cap v).2| ≤ |v.2| := by
  unfold clampSpeed
  split_ifs with h
  · have hs0 : 0 ≤ Real.sqrt (norm2 v) := Real.sqrt_nonneg _
    have hfrac0 : 0 ≤ cap / Real.sqrt (norm2 v) := div_nonneg hcap hs0
    have hfrac1 : cap / Real.sqrt (norm2 v) ≤ 1 := div_le_one_of_le₀ (le_of_lt h) hs0
    constructor <;>
    · dsimp only
      rw [abs_mul, abs_of_nonneg hfrac0]
      exact mul_le_of_le_one_right (abs_nonneg _) hfrac1
  · exact ⟨le_refl _, le_refl _⟩

theorem clampSpeed_scaled (cap : ℝ) (v : ℝ × ℝ) (h : Real.sqrt (norm2 v) > cap) :
    clampSpeed cap v
      = (cap / Real.sqrt (norm2 v) * v.1, cap / Real.sqrt (norm2 v) * v.2) := by
  unfold clampSpeed
  rw [if_pos h, mul_comm v.1, mul_comm v.2]

theorem clampSpeed_norm_eq (cap : ℝ) (hcap : 0 ≤ cap) (v : ℝ × ℝ)
    (h : Real.sqrt (norm2 v) > cap) :
    Real.sqrt (norm2 (clampSpeed cap v)) = cap := by
  have hn2 : 0 ≤ norm2 v := norm2_nonneg v
  have hs0 : 0 ≤ Real.sqrt (norm2 v) := Real.sqrt_nonneg _
  have hspos : 0 < Real.sqrt (norm2 v) := lt_of_le_of_lt hcap h
  have hne : Real.sqrt (norm2 v) ≠ 0 := ne_of_gt hspos
  rw [clampSpeed_scaled cap v h]
  have hexp : norm2 (cap / Real.sqrt (norm2 v) * v.1, cap / Real.sqrt (norm2 v) * v.2)
      = (cap / Real.sqrt (norm2 v)) ^ 2 * norm2 v := by
    unfold norm2
    dsimp only
    ring
  rw [hexp, Real.sqrt_mul (sq_nonneg _), Real.sqrt_sq_eq_abs,
    abs_of_nonneg (div_nonneg hcap hs0), div_mul_cancel₀ cap hne]

theorem clampSpeed_norm_le (cap : ℝ) (hcap : 0 ≤ cap) (v : ℝ × ℝ) :
    Real.sqrt (norm2 (clampSpeed cap v)) ≤ cap := by
  by_cases h : Real.sqrt (norm2 v) > cap
  · exact le_of_eq (clampSpeed_norm_eq cap hcap v h)
  · unfold clampSpeed
    rw [if_neg h]
    exact not_lt.mp h

theorem deadZone_norm2_le (v : ℝ × ℝ) : norm2 (deadZone v) ≤ norm2 v := by
  unfold deadZone norm2
  dsimp only
  split_ifs <;> nlinarith [mul_self_nonneg v.1, mul_self_nonneg v.2]

theorem deadZone_norm_le (v : ℝ × ℝ) :
    Real.sqrt (norm2 (deadZone v)) ≤ Real.sqrt (norm2 v) :=
  Real.sqrt_le_sqrt (deadZone_norm2_le v)

theorem accelStepMain_norm_le (a f cap ix iy : ℝ) (hcap : 0 ≤ cap) (v : ℝ × ℝ) :
    Real.sqrt (norm2 (accelStepMain a f cap ix iy v)) ≤ cap := by
  unfold accelStepMain
  exact le_trans (deadZone_norm_le _) (clampSpeed_norm_le cap hcap _)

/-- Claim C2: one integration step of main.go AccelerateAndMove keeps the
Euclidean velocity magnitude at or below maxSpeed times speedMultiplier
(for any input vector and any starting velocity within the cap), and when
the clamp binds it rescales both components by the same non-negative factor
(the result is a scalar multiple of the unclamped vector, whose magnitude
is then exactly the cap) - direction-preserving rescaling, not per-axis
truncation. -/
theorem C2_speed_cap (a f ms sm ix iy vx vy : ℝ) (hcap : 0 ≤ ms * sm)
    (hv : Real.sqrt (vx * vx + vy * vy) ≤ ms * sm) :
    Real.sqrt (norm2 (accelStepMain a f (ms * sm) ix iy (vx, vy))) ≤ ms * sm
    ∧ (Real.sqrt (norm2 (accelAxis a f ix vx, accelAxis a f iy vy)) > ms * sm →
        ∃ c : ℝ, 0 ≤ c
          ∧ clampSpeed (ms * sm) (accelAxis a f ix vx, accelAxis a f iy vy)
              = (c * accelAxis a f ix vx, c * accelAxis a f iy vy)
          ∧ Real.sqrt (norm2 (clampSpeed (ms * sm)
              (accelAxis a f ix vx, accelAxis a f iy vy))) = ms * sm) := by
  constructor
  · exact accelStepMain_norm_le a f (ms * sm) ix iy hcap (vx, vy)
  · intro h
    refine ⟨(ms * sm) / Real.sqrt (norm2 (accelAxis a f ix vx, accelAxis a f iy vy)),
      div_nonneg hcap (Real.sqrt_nonneg _), ?_, clampSpeed_norm_eq _ hcap _ h⟩
    simpa using clampSpeed_scaled (ms * sm) (accelAxis a f ix vx, accelAxis a f iy vy) h

/-- Claim C2 witness: the default parameters (maxSpeed 4, multiplier 1,
acceleration 0.3, friction 0.85) at rest with zero input satisfy the
hypotheses and the conclusion. -/
theorem C2_witness :
    ((0 : ℝ) ≤ 4 * 1)
    ∧ (Real.sqrt ((0 : ℝ) * 0 + 0 * 0) ≤ 4 * 1)
    ∧ (Real.sqrt (norm2 (accelStepMain 0.3 0.85 ((4 : ℝ) * 1) 0 0 (0, 0))) ≤ 4 * 1
      ∧ (Real.sqrt (norm2 (accelAxis 0.3 0.85 0 0, accelAxis 0.3 0.85 0 0)) > (4 : ℝ) * 1 →
          ∃ c : ℝ, 0 ≤ c
            ∧ clampSpeed ((4 : ℝ) * 1) (accelAxis 0.3 0.85 0 0, accelAxis 0.3 0.85 0 0)
                = (c * accelAxis 0.3 0.85 0 0, c * accelAxis 0.3 0.85 0 0)
            ∧ Real.sqrt (norm2 (clampSpeed ((4 : ℝ) * 1)
                (accelAxis 0.3 0.85 0 0, accelAxis 0.3 0.85 0 0))) = 4 * 1)) :=
  ⟨by norm_num,
   by rw [show (0 : ℝ) * 0 + 0 * 0 = 0 by ring, Real.sqrt_zero]; norm_num,
   C2_speed_cap 0.3 0.85 4 1 0 0 0 0 (by norm_num)
     (by rw [show (0 : ℝ) * 0 + 0 * 0 = 0 by ring, Real.sqrt_zero]; norm_num)⟩

theorem accelAxis_zero (a f v : ℝ) : accelAxis a f 0 v = v * f := by
  unfold accelAxis
  simp

theorem deadZone_abs_le (v : ℝ × ℝ) :
    |(deadZone v).1| ≤ |v.1| ∧ |(deadZone v).2| ≤ |v.2| := by
  unfold deadZone
  constructor <;> (dsimp only; split_ifs <;> simp)

theorem accelStepMain_zero_abs (a f cap : ℝ) (hf : 0 ≤ f) (hcap : 0 ≤ cap) (v : ℝ × ℝ) :
    |(accelStepMain a f cap 0 0 v).1| ≤ f * |v.1|
    ∧ |(accelStepMain a f cap 0 0 v).2| ≤ f * |v.2| := by
  unfold accelStepMain
  have hd := deadZone_abs_le (clampSpeed cap (accelAxis a f 0 v.1, accelAxis a f 0 v.2))
  have hc := clampSpeed_abs_le cap hcap (accelAxis a f 0 v.1, accelAxis a f 0 v.2)
  have he1 : |accelAxis a f 0 v.1| = f * |v.1| := by
    rw [accelAxis_zero, abs_mul, abs_of_nonneg hf, mul_comm]
  have he2 : |accelAxis a f 0 v.2| = f * |v.2| := by
    rw [accelAxis_zero, abs_mul, abs_of_nonneg hf, mul_comm]
  constructor
  · exact le_trans hd.1 (le_trans (by simpa using hc.1) (le_of_eq he1))
  · exact le_trans hd.2 (le_trans (by simpa using hc.2) (le_of_eq he2))

theorem accelStepMain_zero_snap_fst (a f cap : ℝ) (hf : 0 ≤ f) (hcap : 0 ≤ cap)
    (v : ℝ × ℝ) (h : f * |v.1| < 0.1) :
    (accelStepMain a f cap 0 0 v).1 = 0 := by
  have hc := (clampSpeed_abs_le cap hcap (accelAxis a f 0 v.1, accelAxis a f 0 v.2)).1
  have he1 : |accelAxis a f 0 v.1| = f * |v.1| := by
    rw [accelAxis_zero, abs_mul, abs_of_nonneg hf, mul_comm]
  have hcond : |(clampSpeed cap (accelAxis a f 0 v.1, accelAxis a f 0 v.2)).1| < 0.1 := by
    calc |(clampSpeed cap (accelAxis a f 0 v.1, accelAxis a f 0 v.2)).1|
        ≤ |accelAxis a f 0 v.1| := by simpa using hc
      _ = f * |v.1| := he1
      _ < 0.1 := h
  unfold accelStepMain deadZone
  dsimp only
  rw [if_pos hcond]

theorem accelStepMain_zero_snap_snd (a f cap : ℝ) (hf : 0 ≤ f) (hcap : 0 ≤ cap)
    (v : ℝ × ℝ) (h : f * |v.2| < 0.1) :
    (accelStepMain a f cap 0 0 v).2 = 0 := by
  have hc := (clampSpeed_abs_le cap hcap (accelAxis a f 0 v.1, accelAxis a f 0 v.2)).2
  have he2 : |accelAxis a f 0 v.2| = f * |v.2| := by
    rw [accelAxis_zero, abs_mul, abs_of_nonneg hf, mul_comm]
  have hcond : |(clampSpeed cap (accelAxis a f 0 v.1, accelAxis a f 0 v.2)).2| < 0.1 := by
    calc |(clampSpeed cap (accelAxis a f 0 v.1, accelAxis a f 0 v.2)).2|
        ≤ |accelAxis a f 0 v.2| := by simpa using hc
      _ = f * |v.2| := he2
      _ < 0.1 := h
  unfold accelStepMain deadZone
  dsimp only
  rw [if_pos hcond]

theorem accelStepMain_zero_iter_abs (a f cap : ℝ) (hf : 0 ≤ f) (hcap : 0 ≤ cap)
    (v : ℝ × ℝ) (n : ℕ) :
    |((accelStepMain a f cap 0 0)^[n] v).1| ≤ f ^ n * |v.1|
    ∧ |((accelStepMain a f cap 0 0)^[n] v).2| ≤ f ^ n * |v.2| := by
  induction n with
  | zero => simp
  | succ n ih =>
    rw [Function.iterate_succ_apply']
    have hs := accelStepMain_zero_abs a f cap hf hcap ((accelStepMain a f cap 0 0)^[n] v)
    constructor
    · calc |(accelStepMain a f cap 0 0 ((accelStepMain a f cap 0 0)^[n] v)).1|
          ≤ f * |((accelStepMain a f cap 0 0)^[n] v).1| := hs.1
        _ ≤ f * (f ^ n * |v.1|) := mul_le_mul_of_nonneg_left ih.1 hf
        _ = f ^ (n + 1) * |v.1| := by ring
    · calc |(accelStepMain a f cap 0 0 ((accelStepMain a f cap 0 0)^[n] v)).2|
          ≤ f * |((accelStepMain a f cap 0 0)^[n] v).2| := hs.2
        _ ≤ f * (f ^ n * |v.2|) := mul_le_mul_of_nonneg_left ih.2 hf
        _ = f ^ (n + 1) * |v.2| := by ring

/-- Claim C3 (amended): for the main.go integrator (AccelerateAndMove, whose
dead-zone snap is active), iterating the step with zero input on both axes
from any initial velocity reaches exactly (0, 0) after finitely many steps:
friction shrinks each axis geometrically until it falls below the 0.1
dead-zone threshold and snaps to exactly zero.  (Holds for any friction in
[0, 1) and any non-negative cap.) -/
theorem C3_amended_convergence (a f cap : ℝ) (hf0 : 0 ≤ f) (hf1 : f < 1)
    (hcap : 0 ≤ cap) (v : ℝ × ℝ) :
    ∃ n : ℕ, (accelStepMain a f cap 0 0)^[n] v = (0, 0) := by
  have hBpos : (0 : ℝ) < |v.1| + |v.2| + 1 := by positivity
  obtain ⟨n, hn⟩ := exists_pow_lt_of_lt_one
    (div_pos (by norm_num : (0 : ℝ) < 0.1) hBpos) hf1
  refine ⟨n + 1, ?_⟩
  rw [Function.iterate_succ_apply']
  have hiter := accelStepMain_zero_iter_abs a f cap hf0 hcap v n
  have hfn : (0 : ℝ) ≤ f ^ n := pow_nonneg hf0 n
  have hfl : f ^ (n + 1) ≤ f ^ n := by
    calc f ^ (n + 1) = f * f ^ n := by ring
      _ ≤ 1 * f ^ n := mul_le_mul_of_nonneg_right (le_of_lt hf1) hfn
      _ = f ^ n := one_mul _
  have hB6 : (0.1 / (|v.1| + |v.2| + 1)) * (|v.1| + |v.2| + 1) = 0.1 :=
    div_mul_cancel₀ _ (ne_of_gt hBpos)
  have hB5 : f ^ n * (|v.1| + |v.2| + 1) < 0.1 := by
    calc f ^ n * (|v.1| + |v.2| + 1)
        < (0.1 / (|v.1| + |v.2| + 1)) * (|v.1| + |v.2| + 1) :=
          mul_lt_mul_of_pos_right hn hBpos
      _ = 0.1 := hB6
  have key1 : f * |((accelStepMain a f cap 0 0)^[n] v).1| < 0.1 := by
    have h1 : f * |((accelStepMain a f cap 0 0)^[n] v).1| ≤ f * (f ^ n * |v.1|) :=
      mul_le_mul_of_nonneg_left hiter.1 hf0
    have h3 : f ^ (n + 1) * |v.1| ≤ f ^ n * |v.1| :=
      mul_le_mul_of_nonneg_right hfl (abs_nonneg _)
    have h4 : f ^ n * |v.1| ≤ f ^ n * (|v.1| + |v.2| + 1) := by
      apply mul_le_mul_of_nonneg_left _ hfn
      nlinarith [abs_nonneg v.2]
    nlinarith
  have key2 : f * |((accelStepMain a f cap 0 0)^[n] v).2| < 0.1 := by
    have h1 : f * |((accelStepMain a f cap 0 0)^[n] v).2| ≤ f * (f ^ n * |v.2|) :=
      mul_le_mul_of_nonneg_left hiter.2 hf0
    have h3 : f ^ (n + 1) * |v.2| ≤ f ^ n * |v.2| :=
      mul_le_mul_of_nonneg_right hfl (abs_nonneg _)
    have h4 : f ^ n * |v.2| ≤ f ^ n * (|v.1| + |v.2| + 1) := by
      apply mul_le_mul_of_nonneg_left _ hfn
      nlinarith [abs_nonneg v.1]
    nlinarith
  have e1 := accelStepMain_zero_snap_fst a f cap hf0 hcap _ key1
  have e2 := accelStepMain_zero_snap_snd a f cap hf0 hcap _ key2
  exact Prod.ext e1 e2

theorem partStep_on_axis (x : ℝ) (hx : 0 < x) (hx1 : x ≤ 1) :
    accelerateVelocityPart 0.3 0.85 4 0 0 (x, 0) = (x * 0.85, 0) := by
  unfold accelerateVelocityPart clampSpeed
  rw [accelAxis_zero, accelAxis_zero]
  have harg : norm2 (x * 0.85, (0 : ℝ) * 0.85) = (x * 0.85) * (x * 0.85) := by
    unfold norm2; dsimp only; ring
  rw [harg, Real.sqrt_mul_self (by positivity : (0 : ℝ) ≤ x * 0.85)]
  rw [if_neg (by nlinarith : ¬ x * 0.85 > 4)]
  norm_num

theorem part_zero_iter_closed (n : ℕ) :
    (accelerateVelocityPart 0.3 0.85 4 0 0)^[n] ((1 : ℝ), (0 : ℝ))
      = ((0.85 : ℝ) ^ n, 0) := by
  induction n with
  | zero => simp
  | succ n ih =>
    rw [Function.iterate_succ_apply', ih,
      partStep_on_axis ((0.85 : ℝ) ^ n) (by positivity)
        (pow_le_one₀ (by norm_num) (by norm_num))]
    rw [mul_comm]
    rw [← pow_succ']

/-- Claim C3 counterexample: in the part_000 variant (AccelerateVelocity)
the dead-zone cut-off is commented out, so from initial velocity (1, 0) the
zero-input iteration never reaches exactly (0, 0): after n steps the first
component is 0.85 to the n, which is never zero.  The claim as stated is
therefore false for this integration step. -/
theorem C3_counterexample :
    ¬ ∃ n : ℕ, (accelerateVelocityPart 0.3 0.85 4 0 0)^[n] ((1 : ℝ), (0 : ℝ)) = (0, 0) := by
  rintro ⟨n, hn⟩
  rw [part_zero_iter_closed n] at hn
  have h1 : (0.85 : ℝ) ^ n = 0 := congrArg Prod.fst hn
  exact pow_ne_zero n (by norm_num) h1

/-- Claim C3 witness: with the default parameters (friction 0.85, cap 4) and
initial velocity (1, 1), the hypotheses hold and the zero-input iteration of
the main.go step reaches exactly (0, 0). -/
theorem C3_witness :
    ((0 : ℝ) ≤ 0.85) ∧ ((0.85 : ℝ) < 1) ∧ ((0 : ℝ) ≤ 4)
    ∧ ∃ n : ℕ, (accelStepMain 0.3 0.85 4 0 0)^[n] ((1 : ℝ), (1 : ℝ)) = (0, 0) :=
  ⟨by norm_num, by norm_num, by norm_num,
    C3_amended_convergence 0.3 0.85 4 (by norm_num) (by norm_num) (by norm_num) (1, 1)⟩
